import Mathlib

/-!
Verification of `examples/linny/flow.py` (the `linear_regression_flow`
prefect workflow) against its natural-language specification.

The flow is embedded shallowly:

* JSON-like configuration documents become the inductive type `Value`.
* The external `pytensils.config.Handler` is a record holding the parsed
  data document; the outcome of its external `validate` call is a
  parameter of the `World` (the flow only branches on that outcome).
* The external `pytensils.logging.Handler` is a record of the constructor
  arguments together with the module-level configuration captured at
  construction time; its file writes go to an explicit file store.
* Each prefect task becomes a function returning `Except Fault _` and
  threading a `FlowState` (logging globals, file store, event trace).
* `runFlow` chains the four tasks exactly as `linear_regression_flow`
  does, stopping at the first fault, as the sequential task runner does.
-/

/-- A JSON-like value: the contents of configuration documents and
run-request payloads. -/
inductive Value where
  | str (s : String)
  | int (n : Int)
  | bool (b : Bool)
  | obj (m : List (String × Value))
  | arr (l : List Value)

/-- Python dict lookup on an association list (first binding wins,
mirroring dict key uniqueness). -/
def lookupList : List (String × Value) → String → Option Value
  | [], _ => none
  | (k', v') :: rest, k => if k' = k then some v' else lookupList rest k

/-- Python dict assignment `m[k] = v`: replaces the binding if the key is
present, otherwise appends it. -/
def objSet : List (String × Value) → String → Value → List (String × Value)
  | [], k, v => [(k, v)]
  | (k', v') :: rest, k, v =>
    if k' = k then (k, v) :: rest else (k', v') :: objSet rest k v

/-- Faults a run of the flow can raise; every fault propagates to the
orchestrator uncaught (the flow installs no handler). -/
inductive Fault where
  | validationError (msg : String)
  | keyError (k : String)
  | typeError (k : String)
  | attributeError
  | fileNotFound
deriving DecidableEq

/-- Python subscription `v[k]`: a `KeyError` when the key is absent, a
`TypeError` when `v` is not a mapping. -/
def Value.getKey : Value → String → Except Fault Value
  | .obj m, k =>
    match lookupList m k with
    | some v => .ok v
    | none => .error (.keyError k)
  | _, k => .error (.typeError k)

/-- `pytensils.config.Handler`: holds the parsed data document (always a
mapping, as loaded from a JSON object file). -/
structure ConfigHandler where
  data : List (String × Value)

/-- Outcome of the external `pytensils` `validate()` call: it either
raises a `ValidationError` or returns a truthiness-tested value. -/
inductive ValidateResult where
  | raises (msg : String)
  | returns (b : Bool)
deriving DecidableEq

/-- The module-level configuration of `pytensils.logging`: `INDENT`,
`LINE_LENGTH` and `TIMEZONE` are process-wide mutable globals. -/
structure LogGlobals where
  INDENT : Nat
  LINE_LENGTH : Nat
  TIMEZONE : String
deriving DecidableEq

/-- The library defaults of `pytensils.logging`: indent 4, line length
79, timezone 'America/New_York' (quoted in `start_logging`'s docstring). -/
def defaultGlobals : LogGlobals :=
  { INDENT := 4, LINE_LENGTH := 79, TIMEZONE := "America/New_York" }

/-- One piece of content of the user-log file, in write order. -/
inductive LogEntry where
  | openBlock (description : Value) (metadata : Value)
  | header (s : String)
  | line (v : Value)
  | summary

/-- Modelled from the spec: `pytensils.logging.Handler` writes to the file
`Logging.path/Logging.file_name`; the library default file name itself is
not named by the spec, so it is a fixed abstract constant here. -/
def defaultLogFileName : String := "python.log"

/-- `pytensils.logging.Handler`: the constructor arguments of the
user-logging object, together with the module-level globals captured when
it was constructed. -/
structure LoggingHandler where
  path : String
  file_name : String
  description : Value
  metadata : Value
  debug_console : Bool
  cfg : LogGlobals

/-- Observable events of a flow run: task starts, user-log lifecycle,
the quiescence sleep, and artifact publication. -/
inductive Event where
  | taskStarted (name : String)
  | logOpened (file : String) (description : Value) (metadata : Value) (cfg : LogGlobals)
  | slept (seconds : Nat)
  | logClosed (file : String)
  | artifactPublished (markdown : List LogEntry) (description : String)

/-- The mutable state threaded through a flow run: the logging module's
globals, the file store (full path ↦ file content), and the event trace. -/
structure FlowState where
  globals : LogGlobals
  files : List (String × List LogEntry)
  events : List Event

/-- The initial state of a run: library-default logging globals, no
files, empty trace. -/
def initState : FlowState :=
  { globals := defaultGlobals, files := [], events := [] }

/-- Append one event to the trace. -/
def pushEvent (s : FlowState) (e : Event) : FlowState :=
  { s with events := s.events ++ [e] }

/-- Append one entry to the file at `key`, creating the file if absent. -/
def fsAppend (files : List (String × List LogEntry)) (key : String)
    (e : LogEntry) : List (String × List LogEntry) :=
  match files with
  | [] => [(key, [e])]
  | (k, es) :: rest =>
    if k = key then (k, es ++ [e]) :: rest else (k, es) :: fsAppend rest key e

/-- Read back the full content of the file at `key`. -/
def fsRead : List (String × List LogEntry) → String → Option (List LogEntry)
  | [], _ => none
  | (k, es) :: rest, key => if k = key then some es else fsRead rest key

/-- The environment of a run: the parsed static configuration document
`flow.json`, and the outcome of the external `pytensils` schema
validation of a given data document against `dtypes.json`. -/
structure World where
  flowData : List (String × Value)
  validate : List (String × Value) → ValidateResult

/-- Task `setup` (`setup_flow_run`): loads the flow configuration,
validates it against the dtypes schema, and — only when validation
returns a truthy value — injects the run request under the key
`'run_request'` and returns the configuration object. When `validate`
returns a falsy value the `if` falls through and the task returns
`None`; when it raises, the fault propagates. -/
def setup_flow_run (w : World) (run_request : Value) :
    Except Fault (Option ConfigHandler) :=
  match w.validate w.flowData with
  | .raises msg => .error (.validationError msg)
  | .returns true => .ok (some ⟨objSet w.flowData "run_request" run_request⟩)
  | .returns false => .ok none

/-- Task `start_logging`: first mutates the logging module's globals to
the supplied `indent`, `line_length` and `timezone`, then constructs the
logging handler from `Flow.data['run_request']['dir']['outputs']` (the
file path, which must be a string), `Flow.data['linear-regression']
['description']` and `Flow.data['run_request']['run-information']`, with
`debug_console=True`. Construction opens the log file and writes the
header/description block. A `None` flow configuration raises
`AttributeError` at the first attribute access, after the globals were
already mutated. -/
def start_logging (Flow : Option ConfigHandler) (indent : Nat)
    (line_length : Nat) (timezone : String) (s : FlowState) :
    Except Fault LoggingHandler × FlowState :=
  let s := { s with globals := { INDENT := indent, LINE_LENGTH := line_length, TIMEZONE := timezone } }
  match Flow with
  | none => (.error .attributeError, s)
  | some Flow =>
    match lookupList Flow.data "run_request" with
    | none => (.error (.keyError "run_request"), s)
    | some rr =>
      match rr.getKey "dir" with
      | .error f => (.error f, s)
      | .ok dirv =>
        match dirv.getKey "outputs" with
        | .error f => (.error f, s)
        | .ok pathv =>
          match pathv with
          | .str path =>
            match lookupList Flow.data "linear-regression" with
            | none => (.error (.keyError "linear-regression"), s)
            | some lr =>
              match lr.getKey "description" with
              | .error f => (.error f, s)
              | .ok descr =>
                match rr.getKey "run-information" with
                | .error f => (.error f, s)
                | .ok meta =>
                  let Logging : LoggingHandler :=
                    { path := path, file_name := defaultLogFileName,
                      description := descr, metadata := meta,
                      debug_console := true, cfg := s.globals }
                  let key := path ++ "/" ++ Logging.file_name
                  let s := { s with
                    files := fsAppend s.files key (.openBlock descr meta) }
                  (.ok Logging, pushEvent s (.logOpened key descr meta s.globals))
          | _ => (.error (.typeError "outputs"), s)

/-- The full path of the file a logging handler writes to. -/
def LoggingHandler.fileKey (L : LoggingHandler) : String :=
  L.path ++ "/" ++ L.file_name

/-- `Logging.write_header(header=h)`. -/
def writeHeader (L : LoggingHandler) (h : String) (s : FlowState) : FlowState :=
  { s with files := fsAppend s.files L.fileKey (.header h) }

/-- `Logging.write(content=v)`. -/
def writeContent (L : LoggingHandler) (v : Value) (s : FlowState) : FlowState :=
  { s with files := fsAppend s.files L.fileKey (.line v) }

/-- `Logging.close()`: writes the run-time summary and releases the file. -/
def closeLog (L : LoggingHandler) (s : FlowState) : FlowState :=
  pushEvent { s with files := fsAppend s.files L.fileKey .summary }
    (.logClosed L.fileKey)

/-- The success message `validate_configuration` writes to the log. -/
def validationSuccessMsg : String :=
  "The workflow configuration validation completed successfully."

/-- Task `validate-configuration` (`validate_configuration`): fetches
`Flow.data['run_request']['workflow']`, sleeps 20 seconds, writes the
header 'Workflow validation', a success message and the workflow
sub-mapping verbatim to the log, and returns the sub-mapping. The real
per-field validation is commented out in the source. -/
def validate_configuration (Flow : Option ConfigHandler)
    (Logging : LoggingHandler) (s : FlowState) :
    Except Fault Value × FlowState :=
  match Flow with
  | none => (.error .attributeError, s)
  | some Flow =>
    match lookupList Flow.data "run_request" with
    | none => (.error (.keyError "run_request"), s)
    | some rr =>
      match rr.getKey "workflow" with
      | .error f => (.error f, s)
      | .ok workflow =>
        let s := pushEvent s (.slept 20)
        let s := writeHeader Logging "Workflow validation" s
        let s := writeContent Logging (.str validationSuccessMsg) s
        let s := writeContent Logging workflow s
        (.ok workflow, s)

/-- The fixed description of the published artifact. -/
def artifactDescription : String := "The user-log generated by the flow-run."

/-- Task `end-logging` (`end_logging`): closes the logger, reads the log
file back in full from `Logging.path/Logging.file_name`, and publishes
its content as one markdown artifact with a fixed description. -/
def end_logging (Logging : LoggingHandler) (s : FlowState) :
    Except Fault Unit × FlowState :=
  let s := closeLog Logging s
  match fsRead s.files Logging.fileKey with
  | none => (.error .fileNotFound, s)
  | some content =>
    (.ok (), pushEvent s (.artifactPublished content artifactDescription))

/-- The result of one invocation of the flow. -/
structure FlowResult where
  outcome : Except Fault Unit
  globals : LogGlobals
  files : List (String × List LogEntry)
  events : List Event

/-- Package a fault that ends the run. -/
def faultResult (f : Fault) (s : FlowState) : FlowResult :=
  { outcome := .error f, globals := s.globals, files := s.files, events := s.events }

/-- `linear_regression_flow(run_request)`: the four tasks in order on the
sequential task runner; the first fault aborts the run and propagates.
`start_logging` is called with `line_length=139` and
`timezone='America/Chicago'`, while `indent` keeps its default — the
value of `logging.INDENT` captured when the module was imported. -/
def runFlow (w : World) (run_request : Value) : FlowResult :=
  let s := pushEvent initState (.taskStarted "setup")
  match setup_flow_run w run_request with
  | .error f => faultResult f s
  | .ok Flow =>
    let s := pushEvent s (.taskStarted "start_logging")
    match start_logging Flow defaultGlobals.INDENT 139 "America/Chicago" s with
    | (.error f, s) => faultResult f s
    | (.ok Logging, s) =>
      let s := pushEvent s (.taskStarted "validate-configuration")
      match validate_configuration Flow Logging s with
      | (.error f, s) => faultResult f s
      | (.ok _, s) =>
        let s := pushEvent s (.taskStarted "end-logging")
        match end_logging Logging s with
        | (.error f, s) => faultResult f s
        | (.ok _, s) =>
          { outcome := .ok (), globals := s.globals, files := s.files,
            events := s.events }

/-- The registration the `__main__` entry point passes to
`linear_regression_flow.serve(...)`. -/
structure ServeRegistration where
  name : String
  description : String
  tags : List String
  version : String
  enforce_parameter_schema : Bool
  print_starting_message : Bool

/-- The `serve` call of the `__main__` block, argument for argument. -/
def mainServe : ServeRegistration :=
  { name := "v0_1_0"
    description := "A linear regression analysis with a linear regression assumption evaluator, orchestrated by `prefect`."
    tags := ["v0.1.0"]
    version := "v0.1.0"
    enforce_parameter_schema := true
    print_starting_message := true }

/-- The parameter list of `linear_regression_flow`. -/
def flowParameters : List String := ["run_request"]

/-- Whether an event is an artifact publication. -/
def isArtifact : Event → Bool
  | .artifactPublished _ _ => true
  | _ => false

/-- How many artifacts a trace publishes. -/
def countArtifacts (es : List Event) : Nat := (es.filter isArtifact).length

/-!  Helper lemmas about the association-list and file-store primitives. -/

theorem lookup_objSet_self (m : List (String × Value)) (k : String) (v : Value) :
    lookupList (objSet m k v) k = some v := by
  induction m with
  | nil => simp [objSet, lookupList]
  | cons kv rest ih =>
    by_cases h : kv.1 = k <;> simp [objSet, lookupList, h, ih]

theorem lookup_objSet_ne (m : List (String × Value)) (k k' : String) (v : Value)
    (h : k' ≠ k) : lookupList (objSet m k v) k' = lookupList m k' := by
  induction m with
  | nil => simp [objSet, lookupList, Ne.symm h]
  | cons kv rest ih =>
    by_cases hk : kv.1 = k
    · simp [objSet, lookupList, hk, Ne.symm h]
    · by_cases hk' : kv.1 = k' <;> simp [objSet, lookupList, hk, hk', h, ih]

theorem fsRead_fsAppend_self (files : List (String × List LogEntry))
    (k : String) (e : LogEntry) :
    fsRead (fsAppend files k e) k = some ((fsRead files k).getD [] ++ [e]) := by
  induction files with
  | nil => simp [fsAppend, fsRead]
  | cons f rest ih =>
    by_cases h : f.1 = k <;> simp [fsAppend, fsRead, h, ih]

/-!  Inversion lemmas for the individual tasks. -/

theorem start_logging_err {Flow : Option ConfigHandler} {i ll : Nat}
    {tz : String} {s s' : FlowState} {f : Fault}
    (h : start_logging Flow i ll tz s = (.error f, s')) :
    s' = { s with globals := ⟨i, ll, tz⟩ } := by
  unfold start_logging at h
  repeat' split at h
  all_goals simp_all

theorem start_logging_ok {Flow : Option ConfigHandler} {i ll : Nat}
    {tz : String} {s s' : FlowState} {L : LoggingHandler}
    (h : start_logging Flow i ll tz s = (.ok L, s')) :
    L.cfg = ⟨i, ll, tz⟩ ∧ L.debug_console = true ∧
    s'.globals = ⟨i, ll, tz⟩ ∧
    s'.files = fsAppend s.files L.fileKey (.openBlock L.description L.metadata) ∧
    s'.events = s.events ++ [.logOpened L.fileKey L.description L.metadata ⟨i, ll, tz⟩] := by
  unfold start_logging at h
  repeat' split at h
  all_goals simp_all [pushEvent, LoggingHandler.fileKey]
  all_goals (obtain ⟨hL, hs⟩ := h; subst hs; rw [← hL]; simp)

theorem validate_configuration_err {Flow : Option ConfigHandler}
    {L : LoggingHandler} {s s' : FlowState} {f : Fault}
    (h : validate_configuration Flow L s = (.error f, s')) : s' = s := by
  unfold validate_configuration at h
  repeat' split at h
  all_goals simp_all

theorem validate_configuration_ok {Flow : Option ConfigHandler}
    {L : LoggingHandler} {s s' : FlowState} {wv : Value}
    (h : validate_configuration Flow L s = (.ok wv, s')) :
    s'.globals = s.globals ∧
    s'.events = s.events ++ [.slept 20] ∧
    s'.files = fsAppend (fsAppend (fsAppend s.files L.fileKey
      (.header "Workflow validation")) L.fileKey (.line (.str validationSuccessMsg)))
      L.fileKey (.line wv) := by
  unfold validate_configuration at h
  repeat' split at h
  all_goals simp_all [pushEvent, writeHeader, writeContent]
  obtain ⟨hw, hs⟩ := h
  subst hs hw
  simp

theorem end_logging_eq (L : LoggingHandler) (s : FlowState) :
    end_logging L s =
      (.ok (), pushEvent (closeLog L s)
        (.artifactPublished ((fsRead s.files L.fileKey).getD [] ++ [.summary])
          artifactDescription)) := by
  unfold end_logging closeLog
  simp [fsRead_fsAppend_self, pushEvent]

/-- Complete case analysis of one invocation of the flow: schema
validation raises during `setup`; validation returns a falsy value (so
`start_logging` trips over the missing configuration); `start_logging`
faults while reading the configuration; the `validate-configuration`
step faults after logging has started; or the run succeeds. -/
theorem runFlow_cases (w : World) (rr : Value) :
    (∃ msg : String, w.validate w.flowData = .raises msg ∧
      runFlow w rr = ⟨.error (.validationError msg), defaultGlobals, [],
        [.taskStarted "setup"]⟩) ∨
    (w.validate w.flowData = .returns false ∧
      runFlow w rr = ⟨.error .attributeError, ⟨4, 139, "America/Chicago"⟩, [],
        [.taskStarted "setup", .taskStarted "start_logging"]⟩) ∨
    (∃ f : Fault, w.validate w.flowData = .returns true ∧
      runFlow w rr = ⟨.error f, ⟨4, 139, "America/Chicago"⟩, [],
        [.taskStarted "setup", .taskStarted "start_logging"]⟩) ∨
    (∃ (f : Fault) (L : LoggingHandler), w.validate w.flowData = .returns true ∧
      L.cfg = ⟨4, 139, "America/Chicago"⟩ ∧
      runFlow w rr = ⟨.error f, ⟨4, 139, "America/Chicago"⟩,
        [(L.fileKey, [.openBlock L.description L.metadata])],
        [.taskStarted "setup", .taskStarted "start_logging",
         .logOpened L.fileKey L.description L.metadata ⟨4, 139, "America/Chicago"⟩,
         .taskStarted "validate-configuration"]⟩) ∨
    (∃ (L : LoggingHandler) (wv : Value), w.validate w.flowData = .returns true ∧
      L.cfg = ⟨4, 139, "America/Chicago"⟩ ∧
      runFlow w rr = ⟨.ok (), ⟨4, 139, "America/Chicago"⟩,
        [(L.fileKey,
          [.openBlock L.description L.metadata, .header "Workflow validation",
           .line (.str validationSuccessMsg), .line wv, .summary])],
        [.taskStarted "setup", .taskStarted "start_logging",
         .logOpened L.fileKey L.description L.metadata ⟨4, 139, "America/Chicago"⟩,
         .taskStarted "validate-configuration", .slept 20,
         .taskStarted "end-logging", .logClosed L.fileKey,
         .artifactPublished
           [.openBlock L.description L.metadata, .header "Workflow validation",
            .line (.str validationSuccessMsg), .line wv, .summary]
           artifactDescription]⟩) := by
  cases hv : w.validate w.flowData with
  | raises msg =>
    refine Or.inl ⟨msg, rfl, ?_⟩
    simp [runFlow, setup_flow_run, hv, faultResult, initState, pushEvent]
  | returns b =>
    cases b with
    | false =>
      refine Or.inr (Or.inl ⟨rfl, ?_⟩)
      simp [runFlow, setup_flow_run, start_logging, hv, faultResult, initState,
        pushEvent, defaultGlobals]
    | true =>
      have hrrq := lookup_objSet_self w.flowData "run_request" rr
      have hlr : lookupList (objSet w.flowData "run_request" rr) "linear-regression" =
          lookupList w.flowData "linear-regression" :=
        lookup_objSet_ne _ _ _ _ (by decide)
      cases hdir : rr.getKey "dir" with
      | error f =>
        refine Or.inr (Or.inr (Or.inl ⟨f, rfl, ?_⟩))
        simp [runFlow, setup_flow_run, start_logging, hv, hrrq, hdir,
          faultResult, initState, pushEvent, defaultGlobals]
      | ok dirv =>
        cases houts : dirv.getKey "outputs" with
        | error f =>
          refine Or.inr (Or.inr (Or.inl ⟨f, rfl, ?_⟩))
          simp [runFlow, setup_flow_run, start_logging, hv, hrrq, hdir, houts,
            faultResult, initState, pushEvent, defaultGlobals]
        | ok pathv =>
          cases pathv with
          | str path =>
            cases hlrv : lookupList w.flowData "linear-regression" with
            | none =>
              refine Or.inr (Or.inr (Or.inl ⟨.keyError "linear-regression", rfl, ?_⟩))
              simp [runFlow, setup_flow_run, start_logging, hv, hrrq, hlr, hdir,
                houts, hlrv, faultResult, initState, pushEvent, defaultGlobals]
            | some lr =>
              cases hdesc : lr.getKey "description" with
              | error f =>
                refine Or.inr (Or.inr (Or.inl ⟨f, rfl, ?_⟩))
                simp [runFlow, setup_flow_run, start_logging, hv, hrrq, hlr,
                  hdir, houts, hlrv, hdesc, faultResult, initState, pushEvent,
                  defaultGlobals]
              | ok descr =>
                cases hmeta : rr.getKey "run-information" with
                | error f =>
                  refine Or.inr (Or.inr (Or.inl ⟨f, rfl, ?_⟩))
                  simp [runFlow, setup_flow_run, start_logging, hv, hrrq, hlr,
                    hdir, houts, hlrv, hdesc, hmeta, faultResult, initState,
                    pushEvent, defaultGlobals]
                | ok meta =>
                  cases hwf : rr.getKey "workflow" with
                  | error f =>
                    refine Or.inr (Or.inr (Or.inr (Or.inl ⟨f,
                      ⟨path, defaultLogFileName, descr, meta, true,
                        ⟨4, 139, "America/Chicago"⟩⟩, rfl, rfl, ?_⟩)))
                    simp [runFlow, setup_flow_run, start_logging,
                      validate_configuration, hv, hrrq, hlr, hdir, houts, hlrv,
                      hdesc, hmeta, hwf, faultResult, initState, pushEvent,
                      defaultGlobals, LoggingHandler.fileKey, fsAppend]
                  | ok wv =>
                    refine Or.inr (Or.inr (Or.inr (Or.inr ⟨
                      ⟨path, defaultLogFileName, descr, meta, true,
                        ⟨4, 139, "America/Chicago"⟩⟩, wv, rfl, rfl, ?_⟩)))
                    simp [runFlow, setup_flow_run, start_logging,
                      validate_configuration, end_logging, closeLog, writeHeader,
                      writeContent, hv, hrrq, hlr, hdir, houts, hlrv, hdesc,
                      hmeta, hwf, faultResult, initState, pushEvent,
                      defaultGlobals, LoggingHandler.fileKey, fsAppend, fsRead]
          | int n =>
            refine Or.inr (Or.inr (Or.inl ⟨.typeError "outputs", rfl, ?_⟩))
            simp [runFlow, setup_flow_run, start_logging, hv, hrrq, hdir, houts,
              faultResult, initState, pushEvent, defaultGlobals]
          | bool b =>
            refine Or.inr (Or.inr (Or.inl ⟨.typeError "outputs", rfl, ?_⟩))
            simp [runFlow, setup_flow_run, start_logging, hv, hrrq, hdir, houts,
              faultResult, initState, pushEvent, defaultGlobals]
          | obj m =>
            refine Or.inr (Or.inr (Or.inl ⟨.typeError "outputs", rfl, ?_⟩))
            simp [runFlow, setup_flow_run, start_logging, hv, hrrq, hdir, houts,
              faultResult, initState, pushEvent, defaultGlobals]
          | arr l =>
            refine Or.inr (Or.inr (Or.inl ⟨.typeError "outputs", rfl, ?_⟩))
            simp [runFlow, setup_flow_run, start_logging, hv, hrrq, hdir, houts,
              faultResult, initState, pushEvent, defaultGlobals]

/-!  Claim theorems. -/

/-- C3 (defect exhibited): the spec requires the logger's close to run
on every exit path, but when the `validate-configuration` step raises
(here: the run request has no `'workflow'` key) after logging has
started, the run ends in that fault with no close event, no artifact,
and a log file that never received its closing summary — the
close-on-exception construct in the source is commented out. -/
theorem close_skipped_when_step_raises :
    (runFlow
      ⟨[("linear-regression", .obj [("description", .str "desc3")])],
       fun _ => .returns true⟩
      (.obj [("dir", .obj [("outputs", .str "/d3"), ("inputs", .str "/i3")]),
             ("run-information", .obj [("run-id", .int 3)])])).outcome =
      .error (.keyError "workflow") ∧
    (runFlow
      ⟨[("linear-regression", .obj [("description", .str "desc3")])],
       fun _ => .returns true⟩
      (.obj [("dir", .obj [("outputs", .str "/d3"), ("inputs", .str "/i3")]),
             ("run-information", .obj [("run-id", .int 3)])])).events =
      [.taskStarted "setup", .taskStarted "start_logging",
       .logOpened "/d3/python.log" (.str "desc3") (.obj [("run-id", .int 3)])
         ⟨4, 139, "America/Chicago"⟩,
       .taskStarted "validate-configuration"] ∧
    (∀ k, Event.logClosed k ∉
      (runFlow
        ⟨[("linear-regression", .obj [("description", .str "desc3")])],
         fun _ => .returns true⟩
        (.obj [("dir", .obj [("outputs", .str "/d3"), ("inputs", .str "/i3")]),
               ("run-information", .obj [("run-id", .int 3)])])).events) ∧
    countArtifacts
      (runFlow
        ⟨[("linear-regression", .obj [("description", .str "desc3")])],
         fun _ => .returns true⟩
        (.obj [("dir", .obj [("outputs", .str "/d3"), ("inputs", .str "/i3")]),
               ("run-information", .obj [("run-id", .int 3)])])).events = 0 ∧
    (runFlow
      ⟨[("linear-regression", .obj [("description", .str "desc3")])],
       fun _ => .returns true⟩
      (.obj [("dir", .obj [("outputs", .str "/d3"), ("inputs", .str "/i3")]),
             ("run-information", .obj [("run-id", .int 3)])])).files =
      [("/d3/python.log", [.openBlock (.str "desc3") (.obj [("run-id", .int 3)])])] := by
  refine ⟨rfl, rfl, ?_, rfl, rfl⟩
  intro k
  have he : (runFlow
      ⟨[("linear-regression", .obj [("description", .str "desc3")])],
       fun _ => .returns true⟩
      (.obj [("dir", .obj [("outputs", .str "/d3"), ("inputs", .str "/i3")]),
             ("run-information", .obj [("run-id", .int 3)])])).events =
      [.taskStarted "setup", .taskStarted "start_logging",
       .logOpened "/d3/python.log" (.str "desc3") (.obj [("run-id", .int 3)])
         ⟨4, 139, "America/Chicago"⟩,
       .taskStarted "validate-configuration"] := rfl
  rw [he]
  simp

/-- C9: two run requests that differ only in the value stored under
`dir.inputs` produce runs with identical outcomes, final logging
globals, log-file contents and event traces (hence identical published
artifacts): `dir.inputs` is read on no live code path — the only code
mentioning it is commented out. -/
theorem flow_independent_of_dir_inputs (w : World)
    (m d : List (String × Value)) (v1 v2 : Value) :
    runFlow w (.obj (objSet m "dir" (.obj (objSet d "inputs" v1)))) =
    runFlow w (.obj (objSet m "dir" (.obj (objSet d "inputs" v2)))) := by
  cases hv : w.validate w.flowData with
  | raises msg => simp [runFlow, setup_flow_run, hv]
  | returns b =>
    cases b with
    | false => simp [runFlow, setup_flow_run, hv]
    | true =>
      simp only [runFlow, setup_flow_run, start_logging, validate_configuration,
        end_logging, closeLog, writeHeader, writeContent, hv, Value.getKey,
        lookup_objSet_self, lookup_objSet_ne, ne_eq, String.reduceEq,
        not_false_eq_true, initState, pushEvent]

/-- C8: whenever the flow constructs the logger, it is constructed with
the maximum line length 139 and the timezone 'America/Chicago' — set by
mutating the logging module's globals before construction, so the final
global state shows the same values — while the indentation width keeps
the library default; the library defaults overridden were 79 and
'America/New_York'. -/
theorem logger_construction_config (w : World) (rr : Value) (fk : String)
    (d m : Value) (cfg : LogGlobals)
    (h : Event.logOpened fk d m cfg ∈ (runFlow w rr).events) :
    cfg = ⟨4, 139, "America/Chicago"⟩ ∧
    cfg.INDENT = defaultGlobals.INDENT ∧
    defaultGlobals = ⟨4, 79, "America/New_York"⟩ ∧
    (runFlow w rr).globals = ⟨4, 139, "America/Chicago"⟩ := by
  rcases runFlow_cases w rr with ⟨msg, hv, hR⟩ | ⟨hv, hR⟩ | ⟨f, hv, hR⟩ |
    ⟨f, L, hv, hL, hR⟩ | ⟨L, wv, hv, hL, hR⟩ <;> rw [hR] at h <;> simp at h
  · exact ⟨h.2.2.2, by rw [h.2.2.2]; rfl, rfl, by rw [hR]⟩
  · exact ⟨h.2.2.2, by rw [h.2.2.2]; rfl, rfl, by rw [hR]⟩

theorem logger_construction_config_witness :
    Event.logOpened "/d8/python.log" (.str "desc8") (.obj [])
      ⟨4, 139, "America/Chicago"⟩ ∈
      (runFlow
        ⟨[("linear-regression", .obj [("description", .str "desc8")])],
         fun _ => .returns true⟩
        (.obj [("dir", .obj [("outputs", .str "/d8")]),
               ("run-information", .obj []),
               ("workflow", .obj [("alpha", .int 1)])])).events ∧
    (⟨4, 139, "America/Chicago"⟩ : LogGlobals) = ⟨4, 139, "America/Chicago"⟩ ∧
    defaultGlobals = ⟨4, 79, "America/New_York"⟩ := by
  have hm : Event.logOpened "/d8/python.log" (.str "desc8") (.obj [])
      ⟨4, 139, "America/Chicago"⟩ ∈
      (runFlow
        ⟨[("linear-regression", .obj [("description", .str "desc8")])],
         fun _ => .returns true⟩
        (.obj [("dir", .obj [("outputs", .str "/d8")]),
               ("run-information", .obj []),
               ("workflow", .obj [("alpha", .int 1)])])).events := by
    have he : (runFlow
        ⟨[("linear-regression", .obj [("description", .str "desc8")])],
         fun _ => .returns true⟩
        (.obj [("dir", .obj [("outputs", .str "/d8")]),
               ("run-information", .obj []),
               ("workflow", .obj [("alpha", .int 1)])])).events =
        [.taskStarted "setup", .taskStarted "start_logging",
         .logOpened "/d8/python.log" (.str "desc8") (.obj [])
           ⟨4, 139, "America/Chicago"⟩,
         .taskStarted "validate-configuration", .slept 20,
         .taskStarted "end-logging", .logClosed "/d8/python.log",
         .artifactPublished
           [.openBlock (.str "desc8") (.obj []), .header "Workflow validation",
            .line (.str validationSuccessMsg), .line (.obj [("alpha", .int 1)]),
            .summary] artifactDescription] := rfl
    rw [he]
    simp
  exact ⟨hm, (logger_construction_config _ _ _ _ _ _ hm).1,
    (logger_construction_config _ _ _ _ _ _ hm).2.2.1⟩

/-- C2: in every run in which a fault occurs once the
`validate-configuration` task has started (the only task that can fault
from there on), the fault propagates out of the flow uncaught as the
run's outcome, the logger's close operation is never invoked, and no
artifact is published. -/
theorem validation_fault_skips_close_and_artifact (w : World) (rr : Value)
    (f : Fault) (hf : (runFlow w rr).outcome = .error f)
    (hv : Event.taskStarted "validate-configuration" ∈ (runFlow w rr).events) :
    (runFlow w rr).outcome = .error f ∧
    (∀ k, Event.logClosed k ∉ (runFlow w rr).events) ∧
    (∀ c d, Event.artifactPublished c d ∉ (runFlow w rr).events) ∧
    countArtifacts (runFlow w rr).events = 0 := by
  rcases runFlow_cases w rr with ⟨msg, hval, hR⟩ | ⟨hval, hR⟩ | ⟨f', hval, hR⟩ |
    ⟨f', L, hval, hL, hR⟩ | ⟨L, wv, hval, hL, hR⟩
  · rw [hR] at hv; simp at hv
  · rw [hR] at hv; simp at hv
  · rw [hR] at hv; simp at hv
  · refine ⟨hf, ?_, ?_, ?_⟩ <;> rw [hR] <;> simp [countArtifacts, isArtifact]
  · rw [hR] at hf; simp at hf

theorem validation_fault_skips_close_and_artifact_witness :
    (runFlow
      ⟨[("linear-regression", .obj [("description", .str "desc2")])],
       fun _ => .returns true⟩
      (.obj [("dir", .obj [("outputs", .str "/d2")]),
             ("run-information", .obj [])])).outcome =
      .error (.keyError "workflow") ∧
    Event.taskStarted "validate-configuration" ∈
      (runFlow
        ⟨[("linear-regression", .obj [("description", .str "desc2")])],
         fun _ => .returns true⟩
        (.obj [("dir", .obj [("outputs", .str "/d2")]),
               ("run-information", .obj [])])).events ∧
    (∀ k, Event.logClosed k ∉
      (runFlow
        ⟨[("linear-regression", .obj [("description", .str "desc2")])],
         fun _ => .returns true⟩
        (.obj [("dir", .obj [("outputs", .str "/d2")]),
               ("run-information", .obj [])])).events) := by
  have hm : Event.taskStarted "validate-configuration" ∈
      (runFlow
        ⟨[("linear-regression", .obj [("description", .str "desc2")])],
         fun _ => .returns true⟩
        (.obj [("dir", .obj [("outputs", .str "/d2")]),
               ("run-information", .obj [])])).events := by
    have he : (runFlow
        ⟨[("linear-regression", .obj [("description", .str "desc2")])],
         fun _ => .returns true⟩
        (.obj [("dir", .obj [("outputs", .str "/d2")]),
               ("run-information", .obj [])])).events =
        [.taskStarted "setup", .taskStarted "start_logging",
         .logOpened "/d2/python.log" (.str "desc2") (.obj [])
           ⟨4, 139, "America/Chicago"⟩,
         .taskStarted "validate-configuration"] := rfl
    rw [he]
    simp
  exact ⟨rfl, hm,
    (validation_fault_skips_close_and_artifact
      ⟨[("linear-regression", .obj [("description", .str "desc2")])],
       fun _ => .returns true⟩
      (.obj [("dir", .obj [("outputs", .str "/d2")]),
             ("run-information", .obj [])])
      (.keyError "workflow") rfl hm).2.1⟩

/-- C5: on every successful run exactly one artifact is published; it is
the last event of the run, directly after the logger was closed, its
content is the full content of the log file (read back from
`Logging.path/Logging.file_name`, the very file the close operation
wrote to), and its description is the fixed string
'The user-log generated by the flow-run.'. -/
theorem successful_run_publishes_one_artifact (w : World) (rr : Value)
    (h : (runFlow w rr).outcome = .ok ()) :
    ∃ (L : LoggingHandler) (content : List LogEntry) (pre : List Event),
      countArtifacts (runFlow w rr).events = 1 ∧
      (runFlow w rr).events =
        pre ++ [.logClosed L.fileKey,
                .artifactPublished content artifactDescription] ∧
      fsRead (runFlow w rr).files L.fileKey = some content := by
  rcases runFlow_cases w rr with ⟨msg, hval, hR⟩ | ⟨hval, hR⟩ | ⟨f', hval, hR⟩ |
    ⟨f', L, hval, hL, hR⟩ | ⟨L, wv, hval, hL, hR⟩
  · rw [hR] at h; simp at h
  · rw [hR] at h; simp at h
  · rw [hR] at h; simp at h
  · rw [hR] at h; simp at h
  · refine ⟨L,
      [.openBlock L.description L.metadata, .header "Workflow validation",
       .line (.str validationSuccessMsg), .line wv, .summary],
      [.taskStarted "setup", .taskStarted "start_logging",
       .logOpened L.fileKey L.description L.metadata ⟨4, 139, "America/Chicago"⟩,
       .taskStarted "validate-configuration", .slept 20,
       .taskStarted "end-logging"], ?_, ?_, ?_⟩ <;>
      rw [hR] <;> simp [countArtifacts, isArtifact, fsRead]

theorem successful_run_publishes_one_artifact_witness :
    (runFlow
      ⟨[("linear-regression", .obj [("description", .str "desc5")])],
       fun _ => .returns true⟩
      (.obj [("dir", .obj [("outputs", .str "/d5")]),
             ("run-information", .obj [("run-id", .int 5)]),
             ("workflow", .obj [("alpha", .int 1)])])).outcome = .ok () ∧
    (∃ (L : LoggingHandler) (content : List LogEntry) (pre : List Event),
      countArtifacts (runFlow
        ⟨[("linear-regression", .obj [("description", .str "desc5")])],
         fun _ => .returns true⟩
        (.obj [("dir", .obj [("outputs", .str "/d5")]),
               ("run-information", .obj [("run-id", .int 5)]),
               ("workflow", .obj [("alpha", .int 1)])])).events = 1 ∧
      (runFlow
        ⟨[("linear-regression", .obj [("description", .str "desc5")])],
         fun _ => .returns true⟩
        (.obj [("dir", .obj [("outputs", .str "/d5")]),
               ("run-information", .obj [("run-id", .int 5)]),
               ("workflow", .obj [("alpha", .int 1)])])).events =
        pre ++ [.logClosed L.fileKey,
                .artifactPublished content artifactDescription] ∧
      fsRead (runFlow
        ⟨[("linear-regression", .obj [("description", .str "desc5")])],
         fun _ => .returns true⟩
        (.obj [("dir", .obj [("outputs", .str "/d5")]),
               ("run-information", .obj [("run-id", .int 5)]),
               ("workflow", .obj [("alpha", .int 1)])])).files L.fileKey =
        some content) :=
  ⟨rfl, successful_run_publishes_one_artifact _ _ rfl⟩

/-- C7: the `__main__` entry point registers the flow with the scheduler
under name 'v0_1_0', version 'v0.1.0', the single tag 'v0.1.0', with
parameter-schema enforcement enabled, and the flow takes the single
parameter `run_request`. -/
theorem serve_registration_spec :
    mainServe.name = "v0_1_0" ∧ mainServe.version = "v0.1.0" ∧
    mainServe.tags = ["v0.1.0"] ∧ mainServe.enforce_parameter_schema = true ∧
    flowParameters = ["run_request"] :=
  ⟨rfl, rfl, rfl, rfl, rfl⟩

/-- C1: when schema validation of the static configuration document
raises during `setup`, the run fails with that validation error, the
trace shows no task after `setup`, no file was ever written (so no
logging occurred), and no artifact is published. -/
theorem setup_validation_failure_halts_flow (w : World) (rr : Value)
    (msg : String) (h : w.validate w.flowData = .raises msg) :
    (runFlow w rr).outcome = .error (.validationError msg) ∧
    (runFlow w rr).events = [.taskStarted "setup"] ∧
    (runFlow w rr).files = [] ∧
    countArtifacts (runFlow w rr).events = 0 := by
  unfold runFlow setup_flow_run
  rw [h]
  simp [faultResult, initState, pushEvent, countArtifacts, isArtifact]

theorem setup_validation_failure_halts_flow_witness :
    (fun w : World => w.validate w.flowData = .raises "missing key 'linear-regression'")
      ⟨[], fun _ => .raises "missing key 'linear-regression'"⟩ ∧
    (runFlow ⟨[], fun _ => .raises "missing key 'linear-regression'"⟩ (.obj [])).outcome =
      .error (.validationError "missing key 'linear-regression'") ∧
    (runFlow ⟨[], fun _ => .raises "missing key 'linear-regression'"⟩ (.obj [])).events =
      [.taskStarted "setup"] :=
  ⟨rfl,
   (setup_validation_failure_halts_flow
     ⟨[], fun _ => .raises "missing key 'linear-regression'"⟩ (.obj [])
     "missing key 'linear-regression'" rfl).1,
   (setup_validation_failure_halts_flow
     ⟨[], fun _ => .raises "missing key 'linear-regression'"⟩ (.obj [])
     "missing key 'linear-regression'" rfl).2.1⟩

/-- C10: when the external `validate()` call returns a falsy value
instead of raising, `setup` itself completes and returns `None` (no
configuration, hence no injected run request), and the run only fails
afterwards, in `start_logging`, with an `AttributeError` from reading
`Flow.data` off the missing configuration; no log file is ever written. -/
theorem falsy_validate_defers_failure (w : World) (rr : Value)
    (h : w.validate w.flowData = .returns false) :
    setup_flow_run w rr = .ok none ∧
    (runFlow w rr).outcome = .error .attributeError ∧
    (runFlow w rr).events = [.taskStarted "setup", .taskStarted "start_logging"] ∧
    (runFlow w rr).files = [] := by
  have hsetup : setup_flow_run w rr = .ok none := by
    unfold setup_flow_run
    rw [h]
  refine ⟨hsetup, ?_, ?_, ?_⟩ <;>
    · unfold runFlow start_logging
      rw [hsetup]
      simp [faultResult, initState, pushEvent]

theorem falsy_validate_defers_failure_witness :
    (fun w : World => w.validate w.flowData = .returns false)
      ⟨[], fun _ => .returns false⟩ ∧
    setup_flow_run ⟨[], fun _ => .returns false⟩ (.obj []) = .ok none ∧
    (runFlow ⟨[], fun _ => .returns false⟩ (.obj [])).outcome = .error .attributeError :=
  ⟨rfl,
   (falsy_validate_defers_failure ⟨[], fun _ => .returns false⟩ (.obj []) rfl).1,
   (falsy_validate_defers_failure ⟨[], fun _ => .returns false⟩ (.obj []) rfl).2.1⟩

/-- C6: when validation of the static document succeeds, `setup` returns
the configuration with the run-request payload injected under the
reserved key `'run_request'`; the injection happens only after the
validation, which is applied to the static document alone — so the
payload is retrievable under the key and its contents never influence
whether validation succeeds (they are not schema-checked). -/
theorem setup_injects_run_request_after_validation (w : World) (rr : Value)
    (h : w.validate w.flowData = .returns true) :
    setup_flow_run w rr = .ok (some ⟨objSet w.flowData "run_request" rr⟩) ∧
    lookupList (objSet w.flowData "run_request" rr) "run_request" = some rr ∧
    (∀ rr' : Value,
      setup_flow_run w rr' = .ok (some ⟨objSet w.flowData "run_request" rr'⟩)) := by
  have hstep : ∀ rr' : Value,
      setup_flow_run w rr' = .ok (some ⟨objSet w.flowData "run_request" rr'⟩) := by
    intro rr'
    unfold setup_flow_run
    rw [h]
  exact ⟨hstep rr, lookup_objSet_self _ _ _, hstep⟩

theorem setup_injects_run_request_after_validation_witness :
    (fun w : World => w.validate w.flowData = .returns true)
      ⟨[("alpha", .int 1)], fun _ => .returns true⟩ ∧
    setup_flow_run ⟨[("alpha", .int 1)], fun _ => .returns true⟩ (.str "payload") =
      .ok (some ⟨[("alpha", .int 1), ("run_request", .str "payload")]⟩) ∧
    lookupList [("alpha", .int 1), ("run_request", .str "payload")] "run_request" =
      some (.str "payload") :=
  ⟨rfl,
   (setup_injects_run_request_after_validation
     ⟨[("alpha", .int 1)], fun _ => .returns true⟩ (.str "payload") rfl).1,
   (setup_injects_run_request_after_validation
     ⟨[("alpha", .int 1)], fun _ => .returns true⟩ (.str "payload") rfl).2.1⟩

/-- C4: given a configuration holding the injected run request whose
payload carries a `'workflow'` sub-mapping, `validate-configuration`
fetches that sub-mapping, sleeps the fixed 20-second quiescence period,
then writes the header 'Workflow validation', the success message and
the sub-mapping verbatim to the log file, and returns the sub-mapping. -/
theorem validate_configuration_behavior (Flow : ConfigHandler)
    (Logging : LoggingHandler) (s : FlowState) (rr wv : Value)
    (h1 : lookupList Flow.data "run_request" = some rr)
    (h2 : rr.getKey "workflow" = .ok wv) :
    validate_configuration (some Flow) Logging s =
      (.ok wv,
        { s with
          events := s.events ++ [.slept 20],
          files := fsAppend (fsAppend (fsAppend s.files Logging.fileKey
            (.header "Workflow validation")) Logging.fileKey
            (.line (.str validationSuccessMsg))) Logging.fileKey (.line wv) }) := by
  simp [validate_configuration, h1, h2, pushEvent, writeHeader, writeContent]

theorem validate_configuration_behavior_witness :
    lookupList [("run_request", .obj [("workflow", .obj [("alpha", .int 1)])])]
      "run_request" = some (.obj [("workflow", .obj [("alpha", .int 1)])]) ∧
    Value.getKey (.obj [("workflow", .obj [("alpha", .int 1)])]) "workflow" =
      .ok (.obj [("alpha", .int 1)]) ∧
    validate_configuration
      (some ⟨[("run_request", .obj [("workflow", .obj [("alpha", .int 1)])])]⟩)
      ⟨"out", "python.log", .str "d", .obj [], true, ⟨4, 139, "America/Chicago"⟩⟩
      initState =
      (.ok (.obj [("alpha", .int 1)]),
        { initState with
          events := [.slept 20],
          files := fsAppend (fsAppend (fsAppend initState.files "out/python.log"
            (.header "Workflow validation")) "out/python.log"
            (.line (.str validationSuccessMsg))) "out/python.log"
            (.line (.obj [("alpha", .int 1)])) }) :=
  ⟨rfl, rfl, by
    have h := validate_configuration_behavior
      ⟨[("run_request", .obj [("workflow", .obj [("alpha", .int 1)])])]⟩
      ⟨"out", "python.log", .str "d", .obj [], true, ⟨4, 139, "America/Chicago"⟩⟩
      initState (.obj [("workflow", .obj [("alpha", .int 1)])])
      (.obj [("alpha", .int 1)]) rfl rfl
    simpa [LoggingHandler.fileKey, initState] using h⟩
